import Mathlib

/-!
Shallow embedding of src/phone_agent/adb/screenshot.py.

The module is a single sequential operation: resolve the target Android
device, run the adb capture and pull commands, re-encode the pulled file
as PNG + base64, clean up, and return a Screenshot record, with a
catch-all that converts every raised error into a solid-black fallback
result.

Modelling choices:
* byte sequences are modelled abstractly as lists of naturals;
* the external commands (subprocess.run on the adb binary), the image
  codec (PIL Image.open) and the local file removal are opaque external
  collaborators, so their behaviour is a parameter: the Env structure
  records, for each command line and timeout, what subprocess.run does,
  what PIL finds in the pulled file, and whether os.remove succeeds;
* the PNG encoder is modelled as a lossless record of the image header
  (signature, width, height) followed by the pixel payload, faithful to
  the property that PNG stores the dimensions losslessly;
* base64 transport encoding is modelled as a concrete injective,
  executable byte-to-text code with an executable left inverse (the
  exact alphabet of the real base64 is irrelevant to every claim);
* a Python str method acting on text is translated to the corresponding
  recursion on the list of characters (strip, splitlines, split, in,
  endswith);
* raised Python exceptions inside the try block are modelled with
  Except; the function body returns an error together with the value of
  real_id when that local had already been assigned, mirroring the
  "real_id" in locals() test of the handler.
-/

namespace AdbShot

/-- Byte sequences, modelled abstractly as lists of naturals. -/
abbrev Bytes := List Nat

/-- An in-memory image as PIL exposes it: its pixel dimensions (img.size)
and an abstract pixel payload. -/
structure Img where
  width : Nat
  height : Nat
  pixels : Bytes
deriving DecidableEq

/-- Leading signature of the modelled PNG stream. -/
def pngSignature : Bytes := [137, 80, 78, 71]

/-- Models the external PNG encoder (img.save(buf, format="PNG")): the
signature, then the dimensions, then the pixel payload. -/
def pngEncode (img : Img) : Bytes :=
  pngSignature ++ img.width :: img.height :: img.pixels

/-- Models the external PNG decoder: recovers the image recorded by
pngEncode, and rejects a stream without the signature. -/
def pngDecode : Bytes → Option Img
  | 137 :: 80 :: 78 :: 71 :: w :: h :: px => some ⟨w, h, px⟩
  | _ => none

/-- Little-endian decimal digits, driven by a fuel argument so that the
recursion is structural and reduces inside the kernel. -/
def natDigitsRevAux : Nat → Nat → List Char
  | 0, _ => []
  | fuel + 1, n =>
    if n = 0 then [] else Nat.digitChar (n % 10) :: natDigitsRevAux fuel (n / 10)

/-- Little-endian decimal digits of a natural number (no digits for 0). -/
def natDigitsRev (n : Nat) : List Char :=
  natDigitsRevAux n n

/-- Transport encoding of one abstract byte: its decimal digits
(most significant first) closed by a separator. -/
def encByte (n : Nat) : List Char :=
  (natDigitsRev n).reverse ++ [',']

/-- Models the external base64.b64encode(...).decode() transport step as
a concrete injective byte-sequence-to-text code. -/
def b64encode (bs : Bytes) : String :=
  String.mk (bs.foldr (fun n acc => encByte n ++ acc) [])

/-- Numeric value of a decimal digit character. -/
def digitVal (c : Char) : Option Nat :=
  if '0' ≤ c ∧ c ≤ '9' then some (c.toNat - '0'.toNat) else none

/-- Decoding loop for the transport code: accumulates the value of the
current digit run and emits it at each separator. -/
def decLoop : List Char → Nat → Option (List Nat)
  | [], _ => some []
  | c :: cs, acc =>
    if c = ',' then (decLoop cs 0).map (fun bs => acc :: bs)
    else
      match digitVal c with
      | some v => decLoop cs (acc * 10 + v)
      | none => none

/-- Models the base64 transport decoding (left inverse of b64encode). -/
def b64decode (s : String) : Option Bytes :=
  decLoop s.data 0

/-- Python substring test (needle in haystack). -/
def pyIn (needle hay : String) : Bool :=
  hay.data.tails.any (fun t => needle.data.isPrefixOf t)

/-- Python str.split on a single separator character. -/
def splitOnChar (sep : Char) : List Char → List (List Char)
  | [] => [[]]
  | c :: cs =>
    let r := splitOnChar sep cs
    if c = sep then [] :: r
    else
      match r with
      | [] => [[c]]
      | g :: gs => (c :: g) :: gs

/-- Python str.strip, removing whitespace at both ends. -/
def pyStrip (s : List Char) : List Char :=
  ((s.dropWhile Char.isWhitespace).reverse.dropWhile Char.isWhitespace).reverse

-- The data model and the orchestrator, translated from screenshot.py.

/-- The result record (dataclass Screenshot). -/
structure Screenshot where
  base64_data : String
  width : Nat
  height : Nat
  device_id : String
  is_sensitive : Bool
deriving DecidableEq

/-- A command line handed to subprocess.run. -/
abbrev Cmd := List String

/-- Outcome of one subprocess.run call: either a raised exception
(timeout and the like), or completion with a return code, stdout and
stderr. -/
inductive RunResult where
  | raised
  | completed (returncode : Int) (stdout : String) (stderr : String)
deriving DecidableEq

/-- The Python exceptions that can be raised inside the try block. -/
inductive Err where
  | procRaised (cmd : Cmd)
  | cmdFailed (cmd : Cmd) (stderr : String)
  | ambiguousCount (n : Nat)
  | imageOpenFailed
  | removeLocalFailed
deriving DecidableEq

/-- Behaviour of the external collaborators during one invocation: what
subprocess.run does on each command line and timeout, what PIL
Image.open finds in the pulled local file (none models a raised decode
error), whether os.remove of the local file succeeds, and the ambient
temp directory and uuid4 hex used for the local file name. -/
structure Env where
  run : Cmd → Nat → RunResult
  openImage : Option Img
  removeLocalOk : Bool
  tmpdir : String
  uuidHex : String

/-- The helper run of screenshot.py: execute a command and return its
stdout, raising RuntimeError on a non-zero exit code. -/
def runCmd (env : Env) (cmd : Cmd) (timeout : Nat) : Except Err String :=
  match env.run cmd timeout with
  | RunResult.raised => Except.error (Err.procRaised cmd)
  | RunResult.completed rc out err =>
    if rc ≠ 0 then Except.error (Err.cmdFailed cmd err) else Except.ok out

/-- The command querying the attached devices. -/
def adbDevicesCmd : Cmd := ["adb", "devices"]

/-- Line parsing of get_single_device: strip the output, split it into
lines, keep the lines ending in a tab followed by the word device, and
take the field before the first tab of each. -/
def parseDevices (out : String) : List String :=
  (((splitOnChar '\x0a' (pyStrip out.data)).filter
      (fun ln => "\tdevice".data.isSuffixOf ln)).map
    (fun ln => String.mk ((splitOnChar '\t' ln).headD [])))

/-- The helper get_single_device: the serial of the only attached ready
device, raising when the count differs from one. -/
def getSingleDevice (env : Env) : Except Err String :=
  match runCmd env adbDevicesCmd 10 with
  | Except.error e => Except.error e
  | Except.ok out =>
    let devices := parseDevices out
    if devices.length ≠ 1 then Except.error (Err.ambiguousCount devices.length)
    else Except.ok (devices.headD "")

/-- Device resolution of build_adb_prefix: the Python truthiness test
device_id or get_single_device() queries the device list both when no
id and when an empty string id was supplied.  The second component is
the trace of commands issued during resolution. -/
def resolveTraced (env : Env) (device_id : Option String) :
    Except Err String × List (Cmd × Nat) :=
  match device_id with
  | some d =>
    if d = "" then (getSingleDevice env, [(adbDevicesCmd, 10)])
    else (Except.ok d, [])
  | none => (getSingleDevice env, [(adbDevicesCmd, 10)])

/-- Python expression d or dflt over an optional string. -/
def pyOr (d : Option String) (dflt : String) : String :=
  match d with
  | some s => if s = "" then dflt else s
  | none => dflt

/-- The fixed 1080 by 2400 solid-black placeholder image created by
black_fallback. -/
def blackImg : Img := { width := 1080, height := 2400, pixels := [0] }

/-- The helper black_fallback: the placeholder Screenshot carrying the
PNG plus base64 encoding of the black image. -/
def blackFallback (device_id : String) (is_sensitive : Bool) : Screenshot :=
  { base64_data := b64encode (pngEncode blackImg)
    width := 1080
    height := 2400
    device_id := device_id
    is_sensitive := is_sensitive }

/-- The fixed remote temporary path. -/
def remotePath : String := "/sdcard/tmp_screenshot.png"

/-- The capture command issued to the resolved device. -/
def capCmd (rid : String) : Cmd :=
  ["adb", "-s", rid, "shell", "screencap", "-p", remotePath]

/-- The pull command transferring the remote file to the local path. -/
def pullCmd (rid lpath : String) : Cmd :=
  ["adb", "-s", rid, "pull", remotePath, lpath]

/-- The remote cleanup command. -/
def rmCmd (rid : String) : Cmd :=
  ["adb", "-s", rid, "shell", "rm", "-f", remotePath]

/-- The unique local temporary path of this invocation. -/
def localPath (env : Env) : String :=
  env.tmpdir ++ "/scr_" ++ env.uuidHex ++ ".png"

/-- The try block of get_screenshot.  An error value models a raised
exception and carries the value of the local real_id when it had
already been assigned, mirroring the locals() test of the handler; the
second component is the trace of commands issued, in order, each with
the timeout it was given. -/
def bodyRun (env : Env) (device_id : Option String) (timeout : Nat) :
    Except (Err × Option String) Screenshot × List (Cmd × Nat) :=
  match resolveTraced env device_id with
  | (Except.error e, tr) => (Except.error (e, none), tr)
  | (Except.ok real_id, tr0) =>
    let tr1 := tr0 ++ [(capCmd real_id, timeout)]
    match runCmd env (capCmd real_id) timeout with
    | Except.error e => (Except.error (e, some real_id), tr1)
    | Except.ok out =>
      if pyIn "Status: -1" out || pyIn "Failed" out then
        (Except.ok (blackFallback real_id true), tr1)
      else
        let lpath := localPath env
        let tr2 := tr1 ++ [(pullCmd real_id lpath, 30)]
        match runCmd env (pullCmd real_id lpath) 30 with
        | Except.error e => (Except.error (e, some real_id), tr2)
        | Except.ok _ =>
          match env.openImage with
          | none => (Except.error (Err.imageOpenFailed, some real_id), tr2)
          | some img =>
            let b64 := b64encode (pngEncode img)
            if env.removeLocalOk then
              let tr3 := tr2 ++ [(rmCmd real_id, 5)]
              match runCmd env (rmCmd real_id) 5 with
              | Except.error e => (Except.error (e, some real_id), tr3)
              | Except.ok _ =>
                (Except.ok { base64_data := b64, width := img.width, height := img.height,
                             device_id := real_id, is_sensitive := false }, tr3)
            else (Except.error (Err.removeLocalFailed, some real_id), tr2)

/-- get_screenshot with its command trace: the try block with the
catch-all handler that converts every raised error into the black
fallback, choosing real_id when it was assigned and otherwise
device_id or the string unknown. -/
def getScreenshotRun (env : Env) (device_id : Option String) (timeout : Nat) :
    Screenshot × List (Cmd × Nat) :=
  match bodyRun env device_id timeout with
  | (Except.ok s, tr) => (s, tr)
  | (Except.error (_, rid), tr) =>
    (blackFallback (rid.getD (pyOr device_id "unknown")) false, tr)

/-- The returned Screenshot of get_screenshot. -/
def getScreenshot (env : Env) (device_id : Option String) (timeout : Nat) : Screenshot :=
  (getScreenshotRun env device_id timeout).1

/-- The commands issued by get_screenshot, in order, with their timeouts. -/
def getScreenshotTrace (env : Env) (device_id : Option String) (timeout : Nat) :
    List (Cmd × Nat) :=
  (getScreenshotRun env device_id timeout).2

/-- The successful result record of the final step. -/
def okShot (img : Img) (r : String) : Screenshot :=
  { base64_data := b64encode (pngEncode img), width := img.width,
    height := img.height, device_id := r, is_sensitive := false }

-- Concrete environments used to evaluate the theorems below on closed
-- inputs.

/-- An environment whose device list reports no ready device. -/
def envNoDevices : Env :=
  { run := fun _ _ => RunResult.completed 0 "List of devices attached\n" ""
    openImage := none, removeLocalOk := true, tmpdir := "/tmp", uuidHex := "aa" }

/-- An environment whose device list reports two ready devices. -/
def envTwoDevices : Env :=
  { run := fun _ _ =>
      RunResult.completed 0 "List of devices attached\nA\tdevice\nB\tdevice" ""
    openImage := none, removeLocalOk := true, tmpdir := "/tmp", uuidHex := "ab" }

/-- An environment with a single ready device in which every step of the
pipeline succeeds, pulling a 7 by 9 image. -/
def envSingle : Env :=
  { run := fun c _ =>
      if c = adbDevicesCmd then
        RunResult.completed 0 "List of devices attached\nemulator-5554\tdevice\n" ""
      else RunResult.completed 0 "" ""
    openImage := some { width := 7, height := 9, pixels := [1, 2, 3] }
    removeLocalOk := true, tmpdir := "/tmp", uuidHex := "cafe" }

/-- A degenerate environment whose device list reports one ready device
whose serial field is the empty string. -/
def envEmptySerial : Env :=
  { run := fun c _ =>
      if c = adbDevicesCmd then RunResult.completed 0 "x\n\tdevice\ny" ""
      else RunResult.raised
    openImage := none, removeLocalOk := true, tmpdir := "/tmp", uuidHex := "ee" }

/-- An environment whose capture command exits zero while printing a
sensitive-refusal marker. -/
def envSensitive : Env :=
  { run := fun _ _ => RunResult.completed 0 "Failed to take screenshot." ""
    openImage := none, removeLocalOk := true, tmpdir := "/tmp", uuidHex := "f0" }

/-- An environment whose capture command exits non-zero while printing a
marker word on stdout. -/
def envCapFail : Env :=
  { run := fun _ _ => RunResult.completed 1 "Failed" "boom"
    openImage := none, removeLocalOk := true, tmpdir := "/tmp", uuidHex := "f1" }

/-- An environment in which capture, pull and decode succeed for device
dev but the remote cleanup command exits non-zero. -/
def envCleanupFail : Env :=
  { run := fun c _ =>
      if c = rmCmd "dev" then RunResult.completed 1 "" "rm failed"
      else RunResult.completed 0 "" ""
    openImage := some { width := 7, height := 9, pixels := [1, 2, 3] }
    removeLocalOk := true, tmpdir := "/tmp", uuidHex := "cc" }

-- Round-trip lemmas for the codec model.

theorem digitVal_digitChar (m : Nat) (hm : m < 10) :
    digitVal (Nat.digitChar m) = some m := by
  interval_cases m <;> decide

theorem decLoop_comma (cs : List Char) (acc : Nat) :
    decLoop (',' :: cs) acc = (decLoop cs 0).map (fun bs => acc :: bs) := by
  simp [decLoop]

theorem natDigitsRevAux_fuel (fuel : Nat) :
    ∀ fuel2 n, n ≤ fuel → n ≤ fuel2 →
      natDigitsRevAux fuel n = natDigitsRevAux fuel2 n := by
  induction fuel with
  | zero =>
    intro fuel2 n h1 h2
    interval_cases n
    cases fuel2 <;> simp [natDigitsRevAux]
  | succ f ih =>
    intro fuel2 n h1 h2
    by_cases hn : n = 0
    · subst hn
      cases fuel2 <;> simp [natDigitsRevAux]
    · have hpos := Nat.pos_of_ne_zero hn
      have hdec : n / 10 < n := Nat.div_lt_self hpos (by decide)
      cases fuel2 with
      | zero => omega
      | succ f2 =>
        simp only [natDigitsRevAux, hn, if_false]
        congr 1
        exact ih f2 (n / 10) (by omega) (by omega)

theorem natDigitsRev_eq (n : Nat) :
    natDigitsRev n =
      if n = 0 then [] else Nat.digitChar (n % 10) :: natDigitsRev (n / 10) := by
  by_cases hn : n = 0
  · subst hn
    simp [natDigitsRev, natDigitsRevAux]
  · cases n with
    | zero => exact absurd rfl hn
    | succ m =>
      have hdec : (m + 1) / 10 < m + 1 := Nat.div_lt_self (Nat.succ_pos m) (by decide)
      simp only [natDigitsRev, natDigitsRevAux, hn, if_false]
      congr 1
      exact natDigitsRevAux_fuel m ((m + 1) / 10) ((m + 1) / 10) (by omega) (by omega)

theorem decLoop_digits (n : Nat) :
    ∀ rest acc, decLoop ((natDigitsRev n).reverse ++ rest) acc =
      decLoop rest (acc * 10 ^ (natDigitsRev n).length + n) := by
  induction n using Nat.strong_induction_on with
  | _ n ih =>
    intro rest acc
    rw [natDigitsRev_eq]
    by_cases h : n = 0
    · simp [h]
    · have hdiv : n / 10 < n := Nat.div_lt_self (Nat.pos_of_ne_zero h) (by decide)
      simp only [h, if_false, List.reverse_cons, List.append_assoc]
      rw [ih (n / 10) hdiv]
      have hmod : n % 10 < 10 := Nat.mod_lt _ (by decide)
      simp only [List.cons_append, List.nil_append, decLoop]
      have hne : Nat.digitChar (n % 10) ≠ ',' := by
        interval_cases hx : (n % 10) <;> decide
      rw [if_neg hne, digitVal_digitChar _ hmod]
      show decLoop rest ((acc * 10 ^ (natDigitsRev (n / 10)).length + n / 10) * 10 + n % 10) =
        decLoop rest (acc * 10 ^ (Nat.digitChar (n % 10) :: natDigitsRev (n / 10)).length + n)
      have harith : (acc * 10 ^ (natDigitsRev (n / 10)).length + n / 10) * 10 + n % 10 =
          acc * 10 ^ (Nat.digitChar (n % 10) :: natDigitsRev (n / 10)).length + n := by
        simp only [List.length_cons, pow_succ]
        ring_nf
        omega
      rw [harith]

theorem b64_roundtrip (bs : Bytes) : b64decode (b64encode bs) = some bs := by
  induction bs with
  | nil => rfl
  | cons b rest ih =>
    have ihd : decLoop (rest.foldr (fun n acc => encByte n ++ acc) []) 0 = some rest := ih
    show decLoop (encByte b ++ rest.foldr (fun n acc => encByte n ++ acc) []) 0 = _
    rw [encByte, List.append_assoc, decLoop_digits, List.singleton_append, decLoop_comma, ihd]
    simp

theorem png_roundtrip (img : Img) : pngDecode (pngEncode img) = some img := by
  cases img
  rfl

-- A complete enumeration of the mutually exclusive outcomes of one
-- invocation, from which every claim follows.

theorem run_cases (env : Env) (d : Option String) (t : Nat) :
    (∃ e tr, resolveTraced env d = (Except.error e, tr) ∧
      getScreenshotRun env d t = (blackFallback (pyOr d "unknown") false, tr)) ∨
    (∃ r tr0, resolveTraced env d = (Except.ok r, tr0) ∧
      ((∃ e, runCmd env (capCmd r) t = Except.error e ∧
          getScreenshotRun env d t = (blackFallback r false, tr0 ++ [(capCmd r, t)])) ∨
       (∃ out, runCmd env (capCmd r) t = Except.ok out ∧
        (((pyIn "Status: -1" out || pyIn "Failed" out) = true ∧
            getScreenshotRun env d t = (blackFallback r true, tr0 ++ [(capCmd r, t)])) ∨
         ((pyIn "Status: -1" out || pyIn "Failed" out) = false ∧
          ((∃ e, runCmd env (pullCmd r (localPath env)) 30 = Except.error e ∧
              getScreenshotRun env d t = (blackFallback r false,
                tr0 ++ [(capCmd r, t), (pullCmd r (localPath env), 30)])) ∨
           (∃ po, runCmd env (pullCmd r (localPath env)) 30 = Except.ok po ∧
            ((env.openImage = none ∧
                getScreenshotRun env d t = (blackFallback r false,
                  tr0 ++ [(capCmd r, t), (pullCmd r (localPath env), 30)])) ∨
             (∃ img, env.openImage = some img ∧
              ((env.removeLocalOk = false ∧
                  getScreenshotRun env d t = (blackFallback r false,
                    tr0 ++ [(capCmd r, t), (pullCmd r (localPath env), 30)])) ∨
               (env.removeLocalOk = true ∧
                ((∃ e, runCmd env (rmCmd r) 5 = Except.error e ∧
                    getScreenshotRun env d t = (blackFallback r false,
                      tr0 ++ [(capCmd r, t), (pullCmd r (localPath env), 30), (rmCmd r, 5)])) ∨
                 (∃ ro, runCmd env (rmCmd r) 5 = Except.ok ro ∧
                    getScreenshotRun env d t = (okShot img r,
                      tr0 ++ [(capCmd r, t), (pullCmd r (localPath env), 30), (rmCmd r, 5)])))))))))))))) := by
  rcases hres : resolveTraced env d with ⟨e | r, tr0⟩
  · exact Or.inl ⟨e, tr0, rfl, by simp only [getScreenshotRun, bodyRun, hres, Option.getD]⟩
  · refine Or.inr ⟨r, tr0, rfl, ?_⟩
    rcases hc : runCmd env (capCmd r) t with e | out
    · exact Or.inl ⟨e, rfl, by simp only [getScreenshotRun, bodyRun, hres, hc, Option.getD]⟩
    · refine Or.inr ⟨out, rfl, ?_⟩
      cases hm : (pyIn "Status: -1" out || pyIn "Failed" out)
      · refine Or.inr ⟨rfl, ?_⟩
        rcases hp : runCmd env (pullCmd r (localPath env)) 30 with e | po
        · exact Or.inl ⟨e, rfl,
            by simp only [getScreenshotRun, bodyRun, hres, hc, hm, hp, Option.getD,
                          Bool.false_eq_true, if_false, List.append_assoc, List.cons_append,
                          List.nil_append]⟩
        · refine Or.inr ⟨po, rfl, ?_⟩
          rcases ho : env.openImage with _ | img
          · exact Or.inl ⟨rfl,
              by simp only [getScreenshotRun, bodyRun, hres, hc, hm, hp, ho, Option.getD,
                            Bool.false_eq_true, if_false, List.append_assoc, List.cons_append,
                            List.nil_append]⟩
          · refine Or.inr ⟨img, rfl, ?_⟩
            cases hrm : env.removeLocalOk
            · exact Or.inl ⟨rfl,
                by simp only [getScreenshotRun, bodyRun, hres, hc, hm, hp, ho, hrm, Option.getD,
                              Bool.false_eq_true, if_false, List.append_assoc, List.cons_append,
                              List.nil_append]⟩
            · refine Or.inr ⟨rfl, ?_⟩
              rcases hr : runCmd env (rmCmd r) 5 with e | ro
              · exact Or.inl ⟨e, rfl,
                  by simp only [getScreenshotRun, bodyRun, hres, hc, hm, hp, ho, hrm, hr,
                                Option.getD, Bool.false_eq_true, if_false, if_true,
                                List.append_assoc, List.cons_append, List.nil_append]⟩
              · exact Or.inr ⟨ro, rfl,
                  by simp only [getScreenshotRun, bodyRun, hres, hc, hm, hp, ho, hrm, hr, okShot,
                                Option.getD, Bool.false_eq_true, if_false, if_true,
                                List.append_assoc, List.cons_append, List.nil_append]⟩
      · exact Or.inl ⟨rfl,
          by simp only [getScreenshotRun, bodyRun, hres, hc, hm, Option.getD, if_true]⟩

theorem run_unresolved (env : Env) (d : Option String) (t : Nat) (e : Err)
    (tr : List (Cmd × Nat)) (hres : resolveTraced env d = (Except.error e, tr)) :
    getScreenshotRun env d t = (blackFallback (pyOr d "unknown") false, tr) := by
  rcases run_cases env d t with ⟨e2, tr2, he, hrun⟩ | ⟨r2, tr2, hres2, _⟩
  · rw [hres] at he
    obtain ⟨h1, h2⟩ : e = e2 ∧ tr = tr2 := by simpa using he
    subst h2
    exact hrun
  · rw [hres] at hres2
    simp at hres2

theorem run_resolved (env : Env) (d : Option String) (t : Nat) (r : String)
    (tr0 : List (Cmd × Nat)) (hres : resolveTraced env d = (Except.ok r, tr0)) :
    (∃ e, runCmd env (capCmd r) t = Except.error e ∧
        getScreenshotRun env d t = (blackFallback r false, tr0 ++ [(capCmd r, t)])) ∨
    (∃ out, runCmd env (capCmd r) t = Except.ok out ∧
     (((pyIn "Status: -1" out || pyIn "Failed" out) = true ∧
         getScreenshotRun env d t = (blackFallback r true, tr0 ++ [(capCmd r, t)])) ∨
      ((pyIn "Status: -1" out || pyIn "Failed" out) = false ∧
       ((∃ e, runCmd env (pullCmd r (localPath env)) 30 = Except.error e ∧
           getScreenshotRun env d t = (blackFallback r false,
             tr0 ++ [(capCmd r, t), (pullCmd r (localPath env), 30)])) ∨
        (∃ po, runCmd env (pullCmd r (localPath env)) 30 = Except.ok po ∧
         ((env.openImage = none ∧
             getScreenshotRun env d t = (blackFallback r false,
               tr0 ++ [(capCmd r, t), (pullCmd r (localPath env), 30)])) ∨
          (∃ img, env.openImage = some img ∧
           ((env.removeLocalOk = false ∧
               getScreenshotRun env d t = (blackFallback r false,
                 tr0 ++ [(capCmd r, t), (pullCmd r (localPath env), 30)])) ∨
            (env.removeLocalOk = true ∧
             ((∃ e, runCmd env (rmCmd r) 5 = Except.error e ∧
                 getScreenshotRun env d t = (blackFallback r false,
                   tr0 ++ [(capCmd r, t), (pullCmd r (localPath env), 30), (rmCmd r, 5)])) ∨
              (∃ ro, runCmd env (rmCmd r) 5 = Except.ok ro ∧
                 getScreenshotRun env d t = (okShot img r,
                   tr0 ++ [(capCmd r, t), (pullCmd r (localPath env), 30), (rmCmd r, 5)])))))))))))) := by
  rcases run_cases env d t with ⟨e2, tr2, he, _⟩ | ⟨r2, tr2, hres2, hrest⟩
  · rw [hres] at he
    simp at he
  · rw [hres] at hres2
    obtain ⟨h1, h2⟩ : r = r2 ∧ tr0 = tr2 := by simpa using hres2
    subst h1
    subst h2
    exact hrest

theorem deviceId_of_resolved (env : Env) (d : Option String) (t : Nat) (r : String)
    (tr0 : List (Cmd × Nat)) (hres : resolveTraced env d = (Except.ok r, tr0)) :
    (getScreenshot env d t).device_id = r := by
  rcases run_resolved env d t r tr0 hres with
      ⟨e, hc, hrun⟩ |
      ⟨out, hc, ⟨hm, hrun⟩ |
        ⟨hm, ⟨e, hp, hrun⟩ |
          ⟨po, hp, ⟨ho, hrun⟩ |
            ⟨img, ho, ⟨hrm, hrun⟩ |
              ⟨hrm, ⟨e, hr, hrun⟩ | ⟨ro, hr, hrun⟩⟩⟩⟩⟩⟩ <;>
    simp [getScreenshot, hrun, blackFallback, okShot]

theorem result_shape (env : Env) (d : Option String) (t : Nat) :
    (∃ x b, getScreenshot env d t = blackFallback x b) ∨
    (∃ r img, env.openImage = some img ∧ getScreenshot env d t = okShot img r) := by
  rcases run_cases env d t with ⟨e, tr, he, hrun⟩ | ⟨r, tr0, hres, hrest⟩
  · exact Or.inl ⟨_, _, by rw [getScreenshot, hrun]⟩
  · rcases hrest with
        ⟨e, hc, hrun⟩ |
        ⟨out, hc, ⟨hm, hrun⟩ |
          ⟨hm, ⟨e, hp, hrun⟩ |
            ⟨po, hp, ⟨ho, hrun⟩ |
              ⟨img, ho, ⟨hrm, hrun⟩ |
                ⟨hrm, ⟨e, hr, hrun⟩ | ⟨ro, hr, hrun⟩⟩⟩⟩⟩⟩
    case _ => exact Or.inl ⟨_, _, by rw [getScreenshot, hrun]⟩
    case _ => exact Or.inl ⟨_, _, by rw [getScreenshot, hrun]⟩
    case _ => exact Or.inl ⟨_, _, by rw [getScreenshot, hrun]⟩
    case _ => exact Or.inl ⟨_, _, by rw [getScreenshot, hrun]⟩
    case _ => exact Or.inl ⟨_, _, by rw [getScreenshot, hrun]⟩
    case _ => exact Or.inl ⟨_, _, by rw [getScreenshot, hrun]⟩
    case _ => exact Or.inr ⟨r, img, ho, by rw [getScreenshot, hrun]⟩

-- The claims.

/-- C1: for every invocation (any device id, any timeout, any behaviour of
the external bridge commands and image codec) get_screenshot returns
exactly one Screenshot and never propagates an error to its caller: every
failure raised inside the body is absorbed into the black fallback
result. -/
theorem C1_total_fallback (env : Env) (d : Option String) (t : Nat) :
    (∃! s : Screenshot, getScreenshot env d t = s) ∧
    (∀ e rid, (bodyRun env d t).1 = Except.error (e, rid) →
      getScreenshot env d t = blackFallback (rid.getD (pyOr d "unknown")) false) := by
  refine ⟨⟨getScreenshot env d t, rfl, fun y hy => hy.symm⟩, ?_⟩
  intro e rid hh
  rcases hb : bodyRun env d t with ⟨exc, tr⟩
  rw [hb] at hh
  cases exc with
  | ok s => simp at hh
  | error pr =>
    rcases pr with ⟨e2, rid2⟩
    obtain ⟨h1, h2⟩ : e2 = e ∧ rid2 = rid := by simpa using hh
    subst h2
    simp [getScreenshot, getScreenshotRun, hb]

/-- Witness for C1 at a concrete environment with no attached devices. -/
theorem C1_total_fallback_witness :
    getScreenshot envNoDevices none 5 = blackFallback "unknown" false :=
  (C1_total_fallback envNoDevices none 5).2 (Err.ambiguousCount 0) none (by rfl)

/-- C2: when the capture command exits zero and its stdout contains a
sensitive-refusal marker (the negative status or the Failed word),
get_screenshot skips the transfer and decode steps (its command trace
ends at the capture command) and returns the sensitive fallback with
dimensions 1080 by 2400. -/
theorem C2_sensitive_refusal (env : Env) (d : Option String) (t : Nat)
    (r out serr : String) (tr0 : List (Cmd × Nat))
    (hres : resolveTraced env d = (Except.ok r, tr0))
    (hcap : env.run (capCmd r) t = RunResult.completed 0 out serr)
    (hmark : pyIn "Status: -1" out = true ∨ pyIn "Failed" out = true) :
    getScreenshot env d t = blackFallback r true ∧
    (getScreenshot env d t).is_sensitive = true ∧
    (getScreenshot env d t).width = 1080 ∧
    (getScreenshot env d t).height = 2400 ∧
    getScreenshotTrace env d t = tr0 ++ [(capCmd r, t)] := by
  have hc : runCmd env (capCmd r) t = Except.ok out := by simp [runCmd, hcap]
  have hm : (pyIn "Status: -1" out || pyIn "Failed" out) = true := by
    rcases hmark with h | h <;> simp [h]
  rcases run_resolved env d t r tr0 hres with ⟨e, hc2, hrun⟩ | ⟨out2, hc2, hrest⟩
  · rw [hc] at hc2
    simp at hc2
  · rw [hc] at hc2
    obtain rfl : out = out2 := by simpa using hc2
    rcases hrest with ⟨hm2, hrun⟩ | ⟨hm2, _⟩
    · refine ⟨?_, ?_, ?_, ?_, ?_⟩ <;>
        simp [getScreenshot, getScreenshotTrace, hrun, blackFallback]
    · rw [hm] at hm2
      exact absurd hm2 (by decide)

/-- Witness for C2 at a concrete environment whose capture output carries
the Failed marker. -/
theorem C2_sensitive_refusal_witness :
    getScreenshot envSensitive (some "dev") 10 = blackFallback "dev" true :=
  (C2_sensitive_refusal envSensitive (some "dev") 10 "dev"
    "Failed to take screenshot." "" [] (by rfl) (by rfl)
    (Or.inr (by decide))).1

/-- C3: a sensitive result carries exactly the black placeholder payload,
never device content, and in every returned result the width and height
fields equal the pixel dimensions of the image the payload decodes to
(placeholder or real). -/
theorem C3_payload_invariants (env : Env) (d : Option String) (t : Nat) :
    ((getScreenshot env d t).is_sensitive = true →
      (getScreenshot env d t).base64_data = b64encode (pngEncode blackImg)) ∧
    (∃ img, (b64decode (getScreenshot env d t).base64_data).bind pngDecode = some img ∧
      img.width = (getScreenshot env d t).width ∧
      img.height = (getScreenshot env d t).height) := by
  rcases result_shape env d t with ⟨x, b, hs⟩ | ⟨r, img, ho, hs⟩
  · rw [hs]
    exact ⟨fun _ => rfl,
      ⟨blackImg, by simp [blackFallback, b64_roundtrip, png_roundtrip], rfl, rfl⟩⟩
  · rw [hs]
    constructor
    · intro h
      simp [okShot] at h
    · exact ⟨img, by simp [okShot, b64_roundtrip, png_roundtrip], rfl, rfl⟩

/-- Witness for C3 at a concrete sensitive refusal: the payload is the
black placeholder. -/
theorem C3_payload_invariants_witness :
    (getScreenshot envSensitive (some "dev") 11).base64_data =
      b64encode (pngEncode blackImg) :=
  (C3_payload_invariants envSensitive (some "dev") 11).1 (by decide)

/-- C4: calling without a device id in an environment whose device list
reports zero or at least two ready devices yields the insensitive black
fallback with placeholder dimensions 1080 by 2400. -/
theorem C4_ambiguous_devices (env : Env) (t : Nat) (out serr : String)
    (hdev : env.run adbDevicesCmd 10 = RunResult.completed 0 out serr)
    (hn : (parseDevices out).length ≠ 1) :
    getScreenshot env none t = blackFallback "unknown" false ∧
    (getScreenshot env none t).is_sensitive = false ∧
    (getScreenshot env none t).width = 1080 ∧
    (getScreenshot env none t).height = 2400 := by
  have hgs : getSingleDevice env =
      Except.error (Err.ambiguousCount (parseDevices out).length) := by
    simp [getSingleDevice, runCmd, hdev, hn]
  have hres : resolveTraced env none =
      (Except.error (Err.ambiguousCount (parseDevices out).length),
        [(adbDevicesCmd, 10)]) := by
    simp [resolveTraced, hgs]
  have hrun := run_unresolved env none t _ _ hres
  refine ⟨?_, ?_, ?_, ?_⟩ <;> simp [getScreenshot, hrun, pyOr, blackFallback]

/-- Witness for C4 at a concrete environment listing two ready devices. -/
theorem C4_ambiguous_devices_witness :
    getScreenshot envTwoDevices none 10 = blackFallback "unknown" false :=
  (C4_ambiguous_devices envTwoDevices 10
    "List of devices attached\nA\tdevice\nB\tdevice" "" (by rfl) (by decide)).1

/-- C5 counterexample: when the device list reports one ready device whose
serial field is empty, the returned device id is the empty string, which
refutes the claim that the deviceId of the result is never empty. -/
theorem C5_counterexample :
    (getScreenshot envEmptySerial none 10).device_id = "" := by decide

/-- C5 (amended): the returned deviceId is the resolved device id whenever
resolution completed, even when a later step fails, and is the value of
device_id-or-unknown when resolution never completed; it can be empty only
in the degenerate case in which the device list itself reports an empty
serial as its single ready device. -/
theorem C5_amended_device_id (env : Env) (d : Option String) (t : Nat) :
    (∀ e tr, resolveTraced env d = (Except.error e, tr) →
      (getScreenshot env d t).device_id = pyOr d "unknown") ∧
    (∀ r tr, resolveTraced env d = (Except.ok r, tr) →
      (getScreenshot env d t).device_id = r) := by
  constructor
  · intro e tr h
    have hrun := run_unresolved env d t e tr h
    simp [getScreenshot, hrun, blackFallback]
  · intro r tr h
    exact deviceId_of_resolved env d t r tr h

/-- Witness for the amended C5 at a concrete environment whose resolution
fails with two ready devices. -/
theorem C5_amended_device_id_witness :
    (getScreenshot envTwoDevices none 4).device_id = "unknown" :=
  (C5_amended_device_id envTwoDevices none 4).1
    (Err.ambiguousCount 2) [(adbDevicesCmd, 10)] (by rfl)

/-- C6 counterexample: a supplied empty-string device id is not used
verbatim; the Python truthiness test device_id or get_single_device()
queries the device list instead, and the result carries the listed
device's id rather than the supplied one. -/
theorem C6_counterexample :
    (getScreenshot envSingle (some "") 10).device_id = "emulator-5554" ∧
    ("emulator-5554" : String) ≠ "" := by decide

/-- C6 (amended): a supplied non-empty device id is used verbatim, the
result carries it and every issued command addresses that id through the
-s flag, with no device-list query; a missing (or empty) id is resolved
through the device list, and with exactly one ready device the result
carries that device's id. -/
theorem C6_amended_resolution (env : Env) (t : Nat) :
    (∀ s : String, s ≠ "" →
      (getScreenshot env (some s) t).device_id = s ∧
      ∀ p ∈ getScreenshotTrace env (some s) t, p.1.take 3 = ["adb", "-s", s]) ∧
    (∀ out serr r, env.run adbDevicesCmd 10 = RunResult.completed 0 out serr →
      parseDevices out = [r] → (getScreenshot env none t).device_id = r) := by
  constructor
  · intro s hs
    have hres : resolveTraced env (some s) = (Except.ok s, []) := by
      simp [resolveTraced, hs]
    refine ⟨deviceId_of_resolved env (some s) t s [] hres, ?_⟩
    rcases run_resolved env (some s) t s [] hres with
        ⟨e, hc, hrun⟩ |
        ⟨out, hc, ⟨hm, hrun⟩ |
          ⟨hm, ⟨e, hp, hrun⟩ |
            ⟨po, hp, ⟨ho, hrun⟩ |
              ⟨img, ho, ⟨hrm, hrun⟩ |
                ⟨hrm, ⟨e, hr, hrun⟩ | ⟨ro, hr, hrun⟩⟩⟩⟩⟩⟩ <;>
      · intro p hp2
        simp only [getScreenshotTrace, hrun, List.nil_append, List.mem_cons,
                   List.not_mem_nil, or_false] at hp2
        rcases hp2 with rfl | rfl | rfl <;> rfl
  · intro out serr r hdev hparse
    have hgs : getSingleDevice env = Except.ok r := by
      simp [getSingleDevice, runCmd, hdev, hparse]
    have hres : resolveTraced env none = (Except.ok r, [(adbDevicesCmd, 10)]) := by
      simp [resolveTraced, hgs]
    exact deviceId_of_resolved env none t r _ hres

/-- Witness for the amended C6: a concrete non-empty supplied id is carried
through verbatim and every issued command addresses it. -/
theorem C6_amended_resolution_witness :
    (getScreenshot envSingle (some "devX") 6).device_id = "devX" ∧
    ∀ p ∈ getScreenshotTrace envSingle (some "devX") 6,
      p.1.take 3 = ["adb", "-s", "devX"] :=
  (C6_amended_resolution envSingle 6).1 "devX" (by decide)

/-- C7 counterexample: with capture, pull and decode succeeding but the
remote cleanup command exiting non-zero, the call returns the black
fallback, not the real decoded screenshot, refuting the claim that a
cleanup failure does not fail the overall operation. -/
theorem C7_counterexample :
    getScreenshot envCleanupFail (some "dev") 10 = blackFallback "dev" false ∧
    getScreenshot envCleanupFail (some "dev") 10 ≠
      okShot { width := 7, height := 9, pixels := [1, 2, 3] } "dev" := by decide

/-- C7 (amended): a non-zero exit of the remote cleanup command after a
successful decode raises inside the try block, so the call still returns
normally but yields the insensitive black fallback in place of the
decoded screenshot. -/
theorem C7_cleanup_failure_falls_back (env : Env) (d : Option String) (t : Nat)
    (r out serr p1 p2 ro rerr : String) (img : Img) (rc : Int)
    (tr0 : List (Cmd × Nat))
    (hres : resolveTraced env d = (Except.ok r, tr0))
    (hcap : env.run (capCmd r) t = RunResult.completed 0 out serr)
    (hm1 : pyIn "Status: -1" out = false)
    (hm2 : pyIn "Failed" out = false)
    (hpull : env.run (pullCmd r (localPath env)) 30 = RunResult.completed 0 p1 p2)
    (hopen : env.openImage = some img)
    (hrml : env.removeLocalOk = true)
    (hrm : env.run (rmCmd r) 5 = RunResult.completed rc ro rerr)
    (hrc : rc ≠ 0) :
    getScreenshot env d t = blackFallback r false := by
  have hcOk : runCmd env (capCmd r) t = Except.ok out := by simp [runCmd, hcap]
  have hpOk : runCmd env (pullCmd r (localPath env)) 30 = Except.ok p1 := by
    simp [runCmd, hpull]
  have hmF : (pyIn "Status: -1" out || pyIn "Failed" out) = false := by
    simp [hm1, hm2]
  have hrmE : runCmd env (rmCmd r) 5 = Except.error (Err.cmdFailed (rmCmd r) rerr) := by
    simp [runCmd, hrm, hrc]
  rcases run_resolved env d t r tr0 hres with ⟨e, hc2, hrun⟩ | ⟨out2, hc2, hrest⟩
  · rw [hcOk] at hc2
    simp at hc2
  · rw [hcOk] at hc2
    obtain rfl : out = out2 := by simpa using hc2
    rcases hrest with ⟨hm2x, hrun⟩ | ⟨_, hrest⟩
    · rw [hmF] at hm2x
      exact absurd hm2x (by decide)
    · rcases hrest with ⟨e, hp2, hrun⟩ | ⟨po, hp2, hrest⟩
      · rw [hpOk] at hp2
        simp at hp2
      · rcases hrest with ⟨ho2, hrun⟩ | ⟨img2, ho2, hrest⟩
        · rw [hopen] at ho2
          simp at ho2
        · rcases hrest with ⟨hrm2, hrun⟩ | ⟨_, hrest⟩
          · rw [hrml] at hrm2
            exact absurd hrm2 (by decide)
          · rcases hrest with ⟨e, hr2, hrun⟩ | ⟨ro2, hr2, hrun⟩
            · simp [getScreenshot, hrun]
            · rw [hrmE] at hr2
              simp at hr2

/-- Witness for the amended C7 at the concrete cleanup-failure
environment. -/
theorem C7_cleanup_failure_witness :
    getScreenshot envCleanupFail (some "dev") 11 = blackFallback "dev" false :=
  C7_cleanup_failure_falls_back envCleanupFail (some "dev") 11 "dev" "" "" "" ""
    "" "rm failed" { width := 7, height := 9, pixels := [1, 2, 3] } 1 []
    (by rfl) (by rfl) (by decide) (by decide) (by rfl) (by rfl) (by rfl)
    (by rfl) (by decide)

-- Trace helpers for the timeout claim.

theorem resolveTraced_trace (env : Env) (d : Option String) :
    (resolveTraced env d).2 = [] ∨ (resolveTraced env d).2 = [(adbDevicesCmd, 10)] := by
  rcases d with _ | s
  · right
    rfl
  · by_cases hs : s = "" <;> simp [resolveTraced, hs]

theorem tr0_not_pull (env : Env) (d : Option String) (r lpath : String)
    (tr0 : List (Cmd × Nat)) (hres : resolveTraced env d = (Except.ok r, tr0)) :
    ∀ p ∈ tr0, p.1 ≠ pullCmd r lpath := by
  have h2 : (resolveTraced env d).2 = tr0 := by rw [hres]
  rcases resolveTraced_trace env d with h0 | h0 <;> rw [h2] at h0 <;> subst h0
  · intro p hp
    simp at hp
  · intro p hp
    simp only [List.mem_singleton] at hp
    subst hp
    simp [adbDevicesCmd, pullCmd]

theorem trace_after_pull (env : Env) (d : Option String) (t : Nat)
    (r out : String) (tr0 : List (Cmd × Nat))
    (hres : resolveTraced env d = (Except.ok r, tr0))
    (hcOk : runCmd env (capCmd r) t = Except.ok out)
    (hmF : (pyIn "Status: -1" out || pyIn "Failed" out) = false) :
    getScreenshotTrace env d t =
      tr0 ++ [(capCmd r, t), (pullCmd r (localPath env), 30)] ∨
    getScreenshotTrace env d t =
      tr0 ++ [(capCmd r, t), (pullCmd r (localPath env), 30), (rmCmd r, 5)] := by
  rcases run_resolved env d t r tr0 hres with ⟨e, hc2, hrun⟩ | ⟨out2, hc2, hrest⟩
  · rw [hcOk] at hc2
    simp at hc2
  · rw [hcOk] at hc2
    obtain rfl : out = out2 := by simpa using hc2
    rcases hrest with ⟨hm2x, hrun⟩ | ⟨_, hrest⟩
    · rw [hmF] at hm2x
      exact absurd hm2x (by decide)
    · rcases hrest with ⟨e, hp2, hrun⟩ | ⟨po, hp2, hrest⟩
      · exact Or.inl (by simp [getScreenshotTrace, hrun])
      · rcases hrest with ⟨ho2, hrun⟩ | ⟨img2, ho2, hrest⟩
        · exact Or.inl (by simp [getScreenshotTrace, hrun])
        · rcases hrest with ⟨hrm2, hrun⟩ | ⟨_, hrest⟩
          · exact Or.inl (by simp [getScreenshotTrace, hrun])
          · rcases hrest with ⟨e, hr2, hrun⟩ | ⟨ro2, hr2, hrun⟩
            · exact Or.inr (by simp [getScreenshotTrace, hrun])
            · exact Or.inr (by simp [getScreenshotTrace, hrun])

/-- C8 counterexample: with the supplied timeout 30 the transfer step is
given the same timeout as the capture step, not a longer one, refuting
the claim that the pull timeout exceeds the capture timeout for every
supplied timeout value. -/
theorem C8_counterexample :
    getScreenshotTrace envSingle (some "dev") 30 =
      [(capCmd "dev", 30), (pullCmd "dev" (localPath envSingle), 30), (rmCmd "dev", 5)] ∧
    ¬ (30 : Nat) > 30 := by decide

/-- C8 (amended): the transfer step always runs with the fixed timeout 30,
independent of the supplied timeout, so it exceeds the capture timeout
exactly when the supplied timeout is below 30 (as with the default 10). -/
theorem C8_fixed_pull_timeout (env : Env) (d : Option String) (t : Nat)
    (r out serr : String) (tr0 : List (Cmd × Nat))
    (hres : resolveTraced env d = (Except.ok r, tr0))
    (hcap : env.run (capCmd r) t = RunResult.completed 0 out serr)
    (hm1 : pyIn "Status: -1" out = false)
    (hm2 : pyIn "Failed" out = false) :
    (capCmd r, t) ∈ getScreenshotTrace env d t ∧
    (pullCmd r (localPath env), 30) ∈ getScreenshotTrace env d t ∧
    ∀ p ∈ getScreenshotTrace env d t,
      p.1 = pullCmd r (localPath env) → p.2 = 30 := by
  have hcOk : runCmd env (capCmd r) t = Except.ok out := by simp [runCmd, hcap]
  have hmF : (pyIn "Status: -1" out || pyIn "Failed" out) = false := by
    simp [hm1, hm2]
  have hnp := tr0_not_pull env d r (localPath env) tr0 hres
  rcases trace_after_pull env d t r out tr0 hres hcOk hmF with htr | htr <;> rw [htr]
  · refine ⟨by simp, by simp, ?_⟩
    intro p hp hpull
    rcases List.mem_append.mp hp with hp0 | hp1
    · exact absurd hpull (hnp p hp0)
    · simp only [List.mem_cons, List.not_mem_nil, or_false] at hp1
      rcases hp1 with rfl | rfl
      · exact absurd hpull (by simp [capCmd, pullCmd])
      · rfl
  · refine ⟨by simp, by simp, ?_⟩
    intro p hp hpull
    rcases List.mem_append.mp hp with hp0 | hp1
    · exact absurd hpull (hnp p hp0)
    · simp only [List.mem_cons, List.not_mem_nil, or_false] at hp1
      rcases hp1 with rfl | rfl | rfl
      · exact absurd hpull (by simp [capCmd, pullCmd])
      · rfl
      · exact absurd hpull (by simp [rmCmd, pullCmd])

/-- Witness for the amended C8: with the default timeout 10 the pull entry
of the trace carries the fixed timeout 30, which is longer. -/
theorem C8_fixed_pull_timeout_witness :
    ((capCmd "dev", 10) ∈ getScreenshotTrace envSingle (some "dev") 10 ∧
      (pullCmd "dev" (localPath envSingle), 30) ∈
        getScreenshotTrace envSingle (some "dev") 10 ∧
      ∀ p ∈ getScreenshotTrace envSingle (some "dev") 10,
        p.1 = pullCmd "dev" (localPath envSingle) → p.2 = 30) ∧
    (10 : Nat) < 30 :=
  ⟨C8_fixed_pull_timeout envSingle (some "dev") 10 "dev" "" "" []
      (by rfl) (by rfl) (by decide) (by decide), by decide⟩

/-- C9: on a fully successful run the returned width and height are the
pulled image's pixel dimensions, and the payload decodes, through the
transport decoding and then the image decoding, back to that image, so
the round trip preserves the dimensions. -/
theorem C9_success_roundtrip (env : Env) (d : Option String) (t : Nat)
    (r out serr p1 p2 ro rerr : String) (img : Img) (tr0 : List (Cmd × Nat))
    (hres : resolveTraced env d = (Except.ok r, tr0))
    (hcap : env.run (capCmd r) t = RunResult.completed 0 out serr)
    (hm1 : pyIn "Status: -1" out = false)
    (hm2 : pyIn "Failed" out = false)
    (hpull : env.run (pullCmd r (localPath env)) 30 = RunResult.completed 0 p1 p2)
    (hopen : env.openImage = some img)
    (hrml : env.removeLocalOk = true)
    (hrm : env.run (rmCmd r) 5 = RunResult.completed 0 ro rerr) :
    getScreenshot env d t = okShot img r ∧
    (getScreenshot env d t).width = img.width ∧
    (getScreenshot env d t).height = img.height ∧
    (b64decode (getScreenshot env d t).base64_data).bind pngDecode = some img := by
  have hcOk : runCmd env (capCmd r) t = Except.ok out := by simp [runCmd, hcap]
  have hpOk : runCmd env (pullCmd r (localPath env)) 30 = Except.ok p1 := by
    simp [runCmd, hpull]
  have hmF : (pyIn "Status: -1" out || pyIn "Failed" out) = false := by
    simp [hm1, hm2]
  have hrOk : runCmd env (rmCmd r) 5 = Except.ok ro := by simp [runCmd, hrm]
  rcases run_resolved env d t r tr0 hres with ⟨e, hc2, hrun⟩ | ⟨out2, hc2, hrest⟩
  · rw [hcOk] at hc2
    simp at hc2
  · rw [hcOk] at hc2
    obtain rfl : out = out2 := by simpa using hc2
    rcases hrest with ⟨hm2x, hrun⟩ | ⟨_, hrest⟩
    · rw [hmF] at hm2x
      exact absurd hm2x (by decide)
    · rcases hrest with ⟨e, hp2, hrun⟩ | ⟨po, hp2, hrest⟩
      · rw [hpOk] at hp2
        simp at hp2
      · rcases hrest with ⟨ho2, hrun⟩ | ⟨img2, ho2, hrest⟩
        · rw [hopen] at ho2
          simp at ho2
        · obtain rfl : img = img2 := by
            rw [hopen] at ho2
            simpa using ho2
          rcases hrest with ⟨hrm2, hrun⟩ | ⟨_, hrest⟩
          · rw [hrml] at hrm2
            exact absurd hrm2 (by decide)
          · rcases hrest with ⟨e, hr2, hrun⟩ | ⟨ro2, hr2, hrun⟩
            · rw [hrOk] at hr2
              simp at hr2
            · refine ⟨?_, ?_, ?_, ?_⟩ <;>
                simp [getScreenshot, hrun, okShot, b64_roundtrip, png_roundtrip]

/-- Witness for C9 at the concrete single-device environment, pulling a
7 by 9 image. -/
theorem C9_success_roundtrip_witness :
    getScreenshot envSingle none 10 =
      okShot { width := 7, height := 9, pixels := [1, 2, 3] } "emulator-5554" :=
  (C9_success_roundtrip envSingle none 10 "emulator-5554" "" "" "" "" "" ""
    { width := 7, height := 9, pixels := [1, 2, 3] } [(adbDevicesCmd, 10)]
    (by rfl) (by rfl) (by decide) (by decide) (by rfl) (by rfl) (by rfl)
    (by rfl)).1

/-- C10: the sensitive-refusal markers are consulted only on the stdout of
a capture command that exited zero; a capture command exiting non-zero
raises instead, so the result is the insensitive fallback even when the
output carries a marker. -/
theorem C10_nonzero_exit_insensitive (env : Env) (d : Option String) (t : Nat)
    (r out serr : String) (rc : Int) (tr0 : List (Cmd × Nat))
    (hres : resolveTraced env d = (Except.ok r, tr0))
    (hcap : env.run (capCmd r) t = RunResult.completed rc out serr)
    (hrc : rc ≠ 0) :
    getScreenshot env d t = blackFallback r false ∧
    (getScreenshot env d t).is_sensitive = false := by
  have hcE : runCmd env (capCmd r) t =
      Except.error (Err.cmdFailed (capCmd r) serr) := by
    simp [runCmd, hcap, hrc]
  rcases run_resolved env d t r tr0 hres with ⟨e, hc2, hrun⟩ | ⟨out2, hc2, _⟩
  · exact ⟨by simp [getScreenshot, hrun],
      by simp [getScreenshot, hrun, blackFallback]⟩
  · rw [hcE] at hc2
    simp at hc2

/-- Witness for C10: a capture that exits 1 while printing Failed yields an
insensitive result. -/
theorem C10_nonzero_exit_insensitive_witness :
    (getScreenshot envCapFail (some "dev") 10).is_sensitive = false ∧
    pyIn "Failed" "Failed" = true :=
  ⟨(C10_nonzero_exit_insensitive envCapFail (some "dev") 10 "dev" "Failed" "boom"
      1 [] (by rfl) (by rfl) (by decide)).2, by decide⟩

end AdbShot
